import Mathlib

/-!
Shallow embedding of `src/main.go` (uber-go fx HTTP playground): two HTTP
handlers (`EchoHandler`, `HelloHandler`), route-table construction
(`NewServeMux`), and the server lifecycle hooks registered in
`NewHTTPServer`. Bytes are modelled as `Nat` values, request/response I/O as
explicit state, and fallible I/O as explicit failure flags or `Except`.
-/

/-- A byte, as a natural number (values used are < 256). -/
abbrev Byte := Nat

/-- UTF-8 encoding of one character, modelling how Go turns a string literal
into the bytes written to the wire. -/
def charUTF8 (c : Char) : List Byte :=
  let n := c.toNat
  if n < 0x80 then [n]
  else if n < 0x800 then [0xC0 + n / 64, 0x80 + n % 64]
  else if n < 0x10000 then [0xE0 + n / 4096, 0x80 + (n / 64) % 64, 0x80 + n % 64]
  else [0xF0 + n / 262144, 0x80 + (n / 4096) % 64, 0x80 + (n / 64) % 64, 0x80 + n % 64]

/-- Bytes of a Go string (UTF-8), used for format strings and response text. -/
def strBytes (s : String) : List Byte :=
  s.data.flatMap charUTF8

/-- Log levels of the zap logger used by the handlers. -/
inductive LogLevel where
  | info
  | warn
  | error
deriving DecidableEq, Repr

/-- An incoming HTTP request as the handlers see it: method, URL path, the
bytes of the body, and whether reading the body fails (`io.ReadAll` /
the read side of `io.Copy` returning an error). -/
structure Request where
  method : String
  path : String
  body : List Byte
  readFails : Bool
deriving Repr

/-- The `http.ResponseWriter` state: whether writes to the client fail
(e.g. client disconnect), the status code written so far (none before any
`WriteHeader` or `Write`), and the body bytes written so far. -/
structure ResponseWriter where
  writeFails : Bool
  status : Option Nat
  body : List Byte
deriving Repr

/-- A fresh response writer for a request whose connection is healthy:
no status written yet, empty body, writes succeed. -/
def freshWriter : ResponseWriter :=
  { writeFails := false, status := none, body := [] }

/-- Go `ResponseWriter.Write`: if no header has been written yet, an implicit
`WriteHeader(200)` happens first; returns whether the write succeeded.
On failure nothing is recorded as written. -/
def ResponseWriter.write (w : ResponseWriter) (bs : List Byte) :
    ResponseWriter × Bool :=
  if w.writeFails then (w, false)
  else ({ w with status := some (w.status.getD 200), body := w.body ++ bs }, true)

/-- Go `ResponseWriter.WriteHeader`: records the status code; a second call
is superfluous and ignored (the first status sticks). -/
def ResponseWriter.writeHeader (w : ResponseWriter) (code : Nat) : ResponseWriter :=
  { w with status := some (w.status.getD code) }

/-- Go `http.Error(w, msg, code)`: writes the header with `code` then the
message followed by a newline. -/
def httpError (w : ResponseWriter) (msg : String) (code : Nat) : ResponseWriter :=
  ((w.writeHeader code).write (strBytes msg ++ [10])).1

/-- The outcome of running a handler: final writer state plus log entries. -/
structure HandlerResult where
  w : ResponseWriter
  logs : List (LogLevel × String)
deriving Repr

/-- Embedding of `EchoHandler.ServeHTTP` (src/main.go lines 107-112):
`io.Copy(w, r.Body)`; if the copy fails (read or write error) the handler
only logs a warning. -/
def EchoHandler.ServeHTTP (r : Request) (w : ResponseWriter) : HandlerResult :=
  if r.readFails then
    { w := w, logs := [(LogLevel.warn, "Failed to handle request")] }
  else
    match w.write r.body with
    | (w1, true) => { w := w1, logs := [] }
    | (w1, false) => { w := w1, logs := [(LogLevel.warn, "Failed to handle request")] }

/-- Embedding of `HelloHandler.ServeHTTP` (src/main.go lines 115-130): read the
whole body; on read error log at error level and reply 500; otherwise write
`fmt.Fprintf(w, "Hello, %s\n", body)`; on write error log at error level and
attempt a 500 reply. -/
def HelloHandler.ServeHTTP (r : Request) (w : ResponseWriter) : HandlerResult :=
  if r.readFails then
    { w := httpError w "Internal server error" 500,
      logs := [(LogLevel.error, "Failed to read request")] }
  else
    match w.write (strBytes "Hello, " ++ r.body ++ [10]) with
    | (w1, true) => { w := w1, logs := [] }
    | (w1, false) =>
      { w := httpError w1 "Internal server error" 500,
        logs := [(LogLevel.error, "Failed to write response")] }

/-- Embedding of `(*EchoHandler).Pattern` (src/main.go lines 87-89). -/
def EchoHandler.Pattern : String := "/echo"

/-- Embedding of `(*HelloHandler).Pattern` (src/main.go lines 92-94). -/
def HelloHandler.Pattern : String := "/hello"

/-- The `Route` interface (src/main.go lines 71-74): an HTTP handler together
with the pattern it registers under. -/
structure Route where
  pattern : String
  serveHTTP : Request → ResponseWriter → HandlerResult

/-- The echo route: `NewEchoHandler` provided via `AsRoute`, registered by
`mux.Handle(route.Pattern(), route)`. -/
def echoRoute : Route :=
  { pattern := EchoHandler.Pattern, serveHTTP := EchoHandler.ServeHTTP }

/-- The hello route: `NewHelloHandler` provided via `AsRoute`. -/
def helloRoute : Route :=
  { pattern := HelloHandler.Pattern, serveHTTP := HelloHandler.ServeHTTP }

/-- The `group:"routes"` value group consumed by `NewServeMux` in `main`. -/
def theRoutes : List Route := [echoRoute, helloRoute]

/-- Model of `net/http.ServeMux`: the registered pattern-to-handler entries. -/
structure ServeMux where
  entries : List (String × (Request → ResponseWriter → HandlerResult))

/-- Model of `(*http.ServeMux).Handle`: net/http rejects (panics on) an empty
pattern and on a pattern that is already registered; a successful call appends
the entry. The panic is modelled as `Except.error`. -/
def ServeMux.handle (mux : ServeMux) (pattern : String)
    (h : Request → ResponseWriter → HandlerResult) : Except String ServeMux :=
  if pattern = "" then Except.error "http: invalid pattern"
  else if mux.entries.any (fun e => e.1 = pattern) then
    Except.error ("http: multiple registrations for " ++ pattern)
  else Except.ok { entries := mux.entries ++ [(pattern, h)] }

/-- The registration loop of `NewServeMux` (src/main.go lines 138-140). -/
def registerAll (mux : ServeMux) : List Route → Except String ServeMux
  | [] => Except.ok mux
  | r :: rs =>
    match mux.handle r.pattern r.serveHTTP with
    | Except.error e => Except.error e
    | Except.ok m => registerAll m rs

/-- Embedding of `NewServeMux` (src/main.go lines 133-144): a fresh mux with
every route registered; an `Except.error` models the registration panic
aborting startup. -/
def NewServeMux (routes : List Route) : Except String ServeMux :=
  registerAll { entries := [] } routes

/-- Model of net/http pattern matching (`pathMatch`): a pattern not ending in
a slash matches only the identical path; a pattern ending in a slash matches
every path it prefixes; the empty pattern matches nothing. -/
def patternMatches (pattern path : String) : Bool :=
  if pattern.data = [] then false
  else if pattern.data.getLast? = some '/' then pattern.data.isPrefixOf path.data
  else pattern = path

/-- Model of net/http handler lookup: among the registered entries whose
pattern matches the path, the one with the longest pattern wins. -/
def ServeMux.findHandler (mux : ServeMux) (path : String) :
    Option (String × (Request → ResponseWriter → HandlerResult)) :=
  mux.entries.foldl
    (fun best e =>
      if patternMatches e.1 path then
        match best with
        | none => some e
        | some b => if b.1.length < e.1.length then some e else some b
      else best)
    none

/-- Model of `(*http.ServeMux).ServeHTTP`: dispatch to the matching handler,
or reply with net/http's `NotFoundHandler` (`http.Error(w, "404 page not
found", 404)`) when no pattern matches. -/
def ServeMux.serveHTTP (mux : ServeMux) (r : Request) (w : ResponseWriter) :
    HandlerResult :=
  match mux.findHandler r.path with
  | some e => e.2 r w
  | none => { w := httpError w "404 page not found" 404, logs := [] }

/-- The mux the application's wiring produces from `theRoutes`. -/
def appMux : ServeMux :=
  { entries := [(EchoHandler.Pattern, EchoHandler.ServeHTTP),
                (HelloHandler.Pattern, HelloHandler.ServeHTTP)] }

/-- Lifecycle phases of the HTTP server (spec: Constructed, Listening,
Stopped). -/
inductive ServerPhase where
  | constructed
  | listening
  | stopped
deriving DecidableEq, Repr

/-- The `http.Server` built by `NewHTTPServer` (src/main.go line 46): the
fixed address, the mux it dispatches through, and its lifecycle phase. -/
structure Server where
  addr : String
  mux : ServeMux
  phase : ServerPhase

/-- Embedding of `NewHTTPServer` (src/main.go line 46): constructs
`&http.Server{Addr: ":8080", Handler: mux}`, not yet listening. -/
def NewHTTPServer (mux : ServeMux) : Server :=
  { addr := ":8080", mux := mux, phase := ServerPhase.constructed }

/-- Observable effects of the `OnStart` hook: the address logged (if any),
whether `go srv.Serve(ln)` was spawned, and the error returned (none = nil). -/
structure StartEffects where
  loggedAddr : Option String
  serveSpawned : Bool
  returned : Option String
deriving DecidableEq, Repr

/-- The `OnStart` hook (src/main.go lines 50-59): `net.Listen("tcp", srv.Addr)`
is the environment, passed in as its result. On bind failure the error is
returned and nothing else happens; on success the address is logged, the serve
loop is spawned asynchronously, and nil is returned immediately. -/
def Server.onStart (s : Server) (listenResult : Except String Unit) :
    Server × StartEffects :=
  match listenResult with
  | Except.error e =>
    (s, { loggedAddr := none, serveSpawned := false, returned := some e })
  | Except.ok _ =>
    ({ s with phase := ServerPhase.listening },
     { loggedAddr := some s.addr, serveSpawned := true, returned := none })

/-- The `OnStop` hook (src/main.go lines 60-63): `return srv.Shutdown(ctx)`.
Models `net/http.Server.Shutdown`: stop accepting, drain, end in the stopped
phase and return nil; on a server whose listeners are already closed it has
nothing left to close and likewise returns nil. -/
def Server.onStop (s : Server) : Server × Option String :=
  ({ s with phase := ServerPhase.stopped }, none)

/-- Dispatching one request through the server (the accept loop handing the
request to `srv.Handler`): a pure read of the route table — the server state,
in particular the mux, is returned unchanged. -/
def Server.serveRequest (s : Server) (r : Request) (w : ResponseWriter) :
    Server × HandlerResult :=
  (s, s.mux.serveHTTP r w)

/-! Helper lemmas shared by the claim theorems. -/

theorem strBytes_append (s t : String) :
    strBytes (s ++ t) = strBytes s ++ strBytes t := by
  simp [strBytes, String.data_append]

theorem strBytes_newline : strBytes "\n" = [10] := by decide

theorem patternMatches_echo_ne (p : String) (hp : p ≠ "/echo") :
    patternMatches "/echo" p = false := by
  unfold patternMatches
  rw [if_neg (by decide), if_neg (by decide)]
  exact decide_eq_false fun hh => hp hh.symm

theorem patternMatches_hello_ne (p : String) (hp : p ≠ "/hello") :
    patternMatches "/hello" p = false := by
  unfold patternMatches
  rw [if_neg (by decide), if_neg (by decide)]
  exact decide_eq_false fun hh => hp hh.symm

theorem registerAll_ok_nodup :
    ∀ (rs : List Route) (m mf : ServeMux), registerAll m rs = Except.ok mf →
      (rs.map Route.pattern).Nodup ∧
      ∀ p ∈ rs.map Route.pattern, p ∉ m.entries.map Prod.fst := by
  intro rs
  induction rs with
  | nil =>
    intro m mf _
    exact ⟨List.nodup_nil, fun p hp => absurd hp (List.not_mem_nil p)⟩
  | cons r rs ih =>
    intro m mf h
    rw [registerAll] at h
    cases hh : ServeMux.handle m r.pattern r.serveHTTP with
    | error e => rw [hh] at h; cases h
    | ok m1 =>
      rw [hh] at h
      unfold ServeMux.handle at hh
      by_cases h0 : r.pattern = ""
      · rw [if_pos h0] at hh; cases hh
      · rw [if_neg h0] at hh
        by_cases h1 : m.entries.any (fun e => e.1 = r.pattern) = true
        · rw [if_pos h1] at hh; cases hh
        · rw [if_neg h1] at hh
          have hm1 : m1.entries = m.entries ++ [(r.pattern, r.serveHTTP)] := by
            cases hh; rfl
          have hnotmem : r.pattern ∉ m.entries.map Prod.fst := by
            intro hmem
            apply h1
            rw [List.any_eq_true]
            obtain ⟨e, he, hep⟩ := List.mem_map.mp hmem
            exact ⟨e, he, by simp [hep]⟩
          obtain ⟨ihn, ihm⟩ := ih m1 mf h
          refine ⟨List.nodup_cons.mpr ⟨?_, ihn⟩, ?_⟩
          · intro hmem
            have := ihm r.pattern hmem
            apply this
            rw [hm1, List.map_append]
            exact List.mem_append_right _ (List.mem_singleton_self _)
          · intro p hp
            simp only [List.map_cons, List.mem_cons] at hp
            rcases hp with rfl | hp
            · exact hnotmem
            · intro hmem
              apply ihm p hp
              rw [hm1]
              simp only [List.map_append, List.mem_append]
              exact Or.inl hmem

/-! Claim theorems. -/

/-- C1: for every byte sequence B sent as the request body to the /echo
handler, `EchoHandler.ServeHTTP` writes a response body byte-identical to B,
applying no transformation, for any request method (and any path). -/
theorem claim_C1 (method path : String) (B : List Byte) :
    (EchoHandler.ServeHTTP
        { method := method, path := path, body := B, readFails := false }
        freshWriter).w.body = B := by
  simp [EchoHandler.ServeHTTP, freshWriter, ResponseWriter.write]

/-- C2: for every text T sent as the request body to the /hello handler, when
reading and writing succeed, `HelloHandler.ServeHTTP` writes a response body
exactly equal to the bytes of "Hello, " ++ T ++ "\n" with status 200 (and logs
nothing). -/
theorem claim_C2 (method path T : String) :
    HelloHandler.ServeHTTP
        { method := method, path := path, body := strBytes T, readFails := false }
        freshWriter =
      { w := { writeFails := false, status := some 200,
               body := strBytes ("Hello, " ++ T ++ "\n") },
        logs := [] } := by
  simp [HelloHandler.ServeHTTP, freshWriter, ResponseWriter.write,
    strBytes_append, strBytes_newline]

/-- C3: if two handlers register the same path pattern, route-table
construction (`NewServeMux`) fails with an error before the server ever
serves: the duplicate is a configuration error discovered at startup, never
silently at dispatch time. -/
theorem claim_C3 (routes : List Route)
    (hdup : ¬ (routes.map Route.pattern).Nodup) :
    ∃ e, NewServeMux routes = Except.error e := by
  cases hres : NewServeMux routes with
  | error e => exact ⟨e, rfl⟩
  | ok m => exact absurd (registerAll_ok_nodup routes _ m hres).1 hdup

/-- Witness for C3 at the concrete duplicated route list [echoRoute,
echoRoute]. -/
theorem claim_C3_witness :
    ∃ e, NewServeMux [echoRoute, echoRoute] = Except.error e :=
  claim_C3 [echoRoute, echoRoute] (by decide)

/-- C4: for every request to the /hello handler whose body cannot be read,
`HelloHandler.ServeHTTP` responds with status 500, logs exactly one entry at
error level, and writes no greeting — the body is the generic error message,
with no retry (the handler returns after this single attempt). -/
theorem claim_C4 (method path : String) (B : List Byte) :
    HelloHandler.ServeHTTP
        { method := method, path := path, body := B, readFails := true }
        freshWriter =
      { w := { writeFails := false, status := some 500,
               body := strBytes "Internal server error" ++ [10] },
        logs := [(LogLevel.error, "Failed to read request")] } := by
  simp [HelloHandler.ServeHTTP, httpError, freshWriter, ResponseWriter.write,
    ResponseWriter.writeHeader]

/-- C5: for every request to the /echo handler in which writing the response
fails, `EchoHandler.ServeHTTP` only logs a warning: the writer state (in
particular its status) is left untouched — no error status is set — and the
handler returns normally for every input. -/
theorem claim_C5 (method path : String) (B : List Byte)
    (st : Option Nat) (bd : List Byte) :
    EchoHandler.ServeHTTP
        { method := method, path := path, body := B, readFails := false }
        { writeFails := true, status := st, body := bd } =
      { w := { writeFails := true, status := st, body := bd },
        logs := [(LogLevel.warn, "Failed to handle request")] } := by
  simp [EchoHandler.ServeHTTP, ResponseWriter.write]

/-- C6: `NewServeMux` over the two routes yields exactly `appMux`; every
request whose path is "/echo" is dispatched to the echo handler, every request
whose path is "/hello" to the hello handler, neither receives the other's
requests, and any unregistered path (such as "/missing") yields status 404. -/
theorem claim_C6 :
    NewServeMux theRoutes = Except.ok appMux ∧
    (∀ r w, r.path = "/echo" → appMux.serveHTTP r w = EchoHandler.ServeHTTP r w) ∧
    (∀ r w, r.path = "/hello" → appMux.serveHTTP r w = HelloHandler.ServeHTTP r w) ∧
    (∀ r, r.path ≠ "/echo" → r.path ≠ "/hello" →
      (appMux.serveHTTP r freshWriter).w.status = some 404) := by
  refine ⟨rfl, ?_, ?_, ?_⟩
  · intro r w h
    simp [ServeMux.serveHTTP, ServeMux.findHandler, appMux, h,
      EchoHandler.Pattern, HelloHandler.Pattern,
      show patternMatches "/echo" "/echo" = true from by decide,
      show patternMatches "/hello" "/echo" = false from by decide]
  · intro r w h
    simp [ServeMux.serveHTTP, ServeMux.findHandler, appMux, h,
      EchoHandler.Pattern, HelloHandler.Pattern,
      show patternMatches "/echo" "/hello" = false from by decide,
      show patternMatches "/hello" "/hello" = true from by decide]
  · intro r h1 h2
    simp [ServeMux.serveHTTP, ServeMux.findHandler, appMux,
      EchoHandler.Pattern, HelloHandler.Pattern,
      patternMatches_echo_ne r.path h1, patternMatches_hello_ne r.path h2,
      httpError, ResponseWriter.writeHeader, ResponseWriter.write, freshWriter]

/-- Witness for C6 at concrete requests for "/echo", "/hello" and the
unregistered path "/missing". -/
theorem claim_C6_witness :
    (appMux.serveHTTP
        { method := "POST", path := "/echo", body := [104, 105], readFails := false }
        freshWriter =
      EchoHandler.ServeHTTP
        { method := "POST", path := "/echo", body := [104, 105], readFails := false }
        freshWriter) ∧
    (appMux.serveHTTP
        { method := "POST", path := "/hello", body := [104, 105], readFails := false }
        freshWriter =
      HelloHandler.ServeHTTP
        { method := "POST", path := "/hello", body := [104, 105], readFails := false }
        freshWriter) ∧
    (appMux.serveHTTP
        { method := "GET", path := "/missing", body := [], readFails := false }
        freshWriter).w.status = some 404 :=
  ⟨claim_C6.2.1 _ freshWriter rfl,
   claim_C6.2.2.1 _ freshWriter rfl,
   claim_C6.2.2.2 _ (by decide) (by decide)⟩

/-- C7: the server is constructed with the fixed address ":8080"; when the
bind fails the `OnStart` hook returns exactly the bind error, logs nothing and
spawns no serve loop; when the bind succeeds it logs the bound address, spawns
the serve loop asynchronously, and returns nil immediately. -/
theorem claim_C7 (m : ServeMux) (e : String) :
    (NewHTTPServer m).addr = ":8080" ∧
    (NewHTTPServer m).onStart (Except.error e) =
      (NewHTTPServer m,
       { loggedAddr := none, serveSpawned := false, returned := some e }) ∧
    (NewHTTPServer m).onStart (Except.ok ()) =
      ({ NewHTTPServer m with phase := ServerPhase.listening },
       { loggedAddr := some ":8080", serveSpawned := true, returned := none }) :=
  ⟨rfl, rfl, rfl⟩

/-- C8: calling the `OnStop` hook on a server that is already stopped is a
no-op that returns success (nil), not an error — stop is idempotent. -/
theorem claim_C8 (s : Server) (h : s.phase = ServerPhase.stopped) :
    s.onStop = (s, none) := by
  cases s with
  | mk a m p =>
    cases h
    rfl

/-- Witness for C8 at a concrete already-stopped server. -/
theorem claim_C8_witness :
    (Server.mk ":8080" { entries := [] } ServerPhase.stopped).onStop =
      (Server.mk ":8080" { entries := [] } ServerPhase.stopped, none) :=
  claim_C8 _ rfl

/-- C9: no operation of the program mutates the route table after
construction: the `OnStart` and `OnStop` hooks leave the server's mux
unchanged, and dispatching a request leaves the whole server state unchanged. -/
theorem claim_C9 (s : Server) (lr : Except String Unit)
    (r : Request) (w : ResponseWriter) :
    ((s.onStart lr).1.mux = s.mux) ∧
    (s.onStop.1.mux = s.mux) ∧
    ((s.serveRequest r w).1 = s) := by
  refine ⟨?_, rfl, rfl⟩
  cases lr <;> rfl

/-- C10: for every byte sequence B — valid UTF-8 or not, empty or not — sent
to the /hello handler with a readable body, the response body is exactly the
bytes of "Hello, " followed by the raw bytes of B and a newline: the handler
never inspects or validates the body's encoding. -/
theorem claim_C10 (method path : String) (B : List Byte) :
    (HelloHandler.ServeHTTP
        { method := method, path := path, body := B, readFails := false }
        freshWriter).w.body = strBytes "Hello, " ++ B ++ [10] := by
  simp [HelloHandler.ServeHTTP, freshWriter, ResponseWriter.write]
